import Mathlib

/-
  Verification of the tap-postgres core (src/tap_postgres/__init__.py).

  The development shallowly embeds the three parts of the module that the
  specification describes:

  * the type mapper `schema_for_column` together with `nullable_column`
    (Python lines 61-146): a pure function from a column descriptor to a
    JSON-schema fragment.  Python's `LOGGER.warning` side effects are
    returned as a list of warning strings, and the `TypeError` that Python
    raises when `numeric_precision` is `None` in the integer branch is
    modelled with `Except.error`.  Numeric bounds (`2 ** (p - 1)`,
    `10 ** (precision - scale)`) are modelled exactly, as rationals.

  * the discovery pipeline `discover_columns` / `do_discovery`
    (Python lines 209-284).  The database/metadata queries are external
    collaborators, so the functions here consume the grouped query results
    (`database -> schema -> table -> columns`, exactly the shape
    `produce_table_info` builds) and produce catalog entries.

  * the sync orchestrator `do_sync` with its two dispatch helpers
    `do_sync_full_table` and `do_sync_logical_replication`
    (Python lines 286-382).  The strategy modules
    (`full_table.sync_table`/`sync_view`, `logical_replication.sync_table`/
    `fetch_current_lsn`) are injected collaborators threaded through an
    abstract world type `W`, so every theorem below quantifies over their
    behaviour; messages written with `singer.write_message` are collected in
    an output list, and the state dictionary is modelled as an explicit
    immutable value.  Python truthiness tests (`if currently_syncing:`,
    `if get_bookmark(...):`) are modelled by explicit truthiness functions.
-/

namespace TapPostgres

/-! ### Column descriptors and schema fragments -/

/-- The `Column` namedtuple (Python lines 30-37).  `None` values coming out
of the metadata query are `Option.none`. -/
structure Column where
  column_name : String
  is_primary_key : Bool
  sql_data_type : String
  character_maximum_length : Option Int
  numeric_precision : Option Int
  numeric_scale : Option Int
  deriving DecidableEq, Repr

/-- The fields of `singer.schema.Schema` that `schema_for_column` assigns;
a fresh `Schema()` has every field `None`. -/
structure Schema where
  type : Option (List String) := none
  format : Option String := none
  minimum : Option ℚ := none
  maximum : Option ℚ := none
  exclusiveMinimum : Option Bool := none
  exclusiveMaximum : Option Bool := none
  multipleOf : Option ℚ := none
  maxLength : Option Int := none
  deriving DecidableEq, Repr

def INTEGER_TYPES : List String := ["integer", "smallint", "bigint"]

def FLOAT_TYPES : List String := ["real", "double precision"]

def JSON_TYPES : List String := ["json", "jsonb"]

def MAX_SCALE : Int := 38

def MAX_PRECISION : Int := 100

/-- `str.lower()` applied to the SQL type name (ASCII lowering, which is all
that the branch constants of `schema_for_column` need). -/
def strLower (s : String) : String := ⟨s.data.map Char.toLower⟩

/-- Python lines 61-64. -/
def nullable_column (col_type : String) (pk : Bool) : List String :=
  if pk then [col_type] else ["null", col_type]

def scaleWarning : String := "capping decimal scale to 38.  THIS MAY CAUSE TRUNCATION"

def precisionWarning : String := "capping decimal precision to 100.  THIS MAY CAUSE TRUNCATION"

/-- `schema_for_column` (Python lines 66-146).  The second component of the
result collects the `LOGGER.warning` messages the call emits.  The integer
branch evaluates `2 ** (c.numeric_precision - 1)`, which raises a
`TypeError` in Python when `numeric_precision` is `None`; that failure is
the `Except.error` case. -/
def schema_for_column (c : Column) : Except String (Schema × List String) :=
  if strLower c.sql_data_type ∈ INTEGER_TYPES then
    match c.numeric_precision with
    | none => .error "TypeError: unsupported operand type for -: NoneType and int"
    | some p =>
      .ok (({ type := some (nullable_column "integer" c.is_primary_key),
              minimum := some (-1 * (2 : ℚ) ^ (p - 1)),
              maximum := some ((2 : ℚ) ^ (p - 1) - 1) } : Schema), [])
  else if strLower c.sql_data_type = "bit" ∧ c.character_maximum_length = some 1 then
    .ok (({ type := some (nullable_column "boolean" c.is_primary_key) } : Schema), [])
  else if strLower c.sql_data_type = "boolean" then
    .ok (({ type := some (nullable_column "boolean" c.is_primary_key) } : Schema), [])
  else if strLower c.sql_data_type = "uuid" then
    .ok (({ type := some (nullable_column "string" c.is_primary_key) } : Schema), [])
  else if strLower c.sql_data_type = "hstore" then
    .ok (({ type := some (nullable_column "string" c.is_primary_key) } : Schema), [])
  else if strLower c.sql_data_type ∈ JSON_TYPES then
    .ok (({ type := some (nullable_column "string" c.is_primary_key) } : Schema), [])
  else if strLower c.sql_data_type = "numeric" then
    let scaleRes : Int × List String :=
      match c.numeric_scale with
      | none => (MAX_SCALE, [scaleWarning])
      | some s => if s > MAX_SCALE then (MAX_SCALE, [scaleWarning]) else (s, [])
    let precRes : Int × List String :=
      match c.numeric_precision with
      | none => (MAX_PRECISION, [precisionWarning])
      | some p => if p > MAX_PRECISION then (MAX_PRECISION, [precisionWarning]) else (p, [])
    .ok (({ type := some (nullable_column "number" c.is_primary_key),
            exclusiveMaximum := some true,
            maximum := some ((10 : ℚ) ^ (precRes.1 - scaleRes.1)),
            multipleOf := some ((10 : ℚ) ^ (0 - scaleRes.1)),
            exclusiveMinimum := some true,
            minimum := some (-(10 : ℚ) ^ (precRes.1 - scaleRes.1)) } : Schema),
          scaleRes.2 ++ precRes.2)
  else if strLower c.sql_data_type ∈ ["time without time zone", "time with time zone"] then
    .ok (({ type := some (nullable_column "string" c.is_primary_key) } : Schema), [])
  else if strLower c.sql_data_type ∈ ["date", "timestamp without time zone", "timestamp with time zone"] then
    .ok (({ type := some (nullable_column "string" c.is_primary_key),
            format := some "date-time" } : Schema), [])
  else if strLower c.sql_data_type ∈ FLOAT_TYPES then
    .ok (({ type := some (nullable_column "number" c.is_primary_key) } : Schema), [])
  else if strLower c.sql_data_type = "text" then
    .ok (({ type := some (nullable_column "string" c.is_primary_key) } : Schema), [])
  else if strLower c.sql_data_type = "character varying" then
    .ok (({ type := some (nullable_column "string" c.is_primary_key),
            maxLength := c.character_maximum_length } : Schema), [])
  else if strLower c.sql_data_type = "character" then
    .ok (({ type := some (nullable_column "string" c.is_primary_key),
            maxLength := c.character_maximum_length } : Schema), [])
  else
    .ok (({} : Schema), [])

/-! ### State snapshots and singer bookmark helpers -/

/-- A bookmark value as stored by the tap: either Python `None` (written for
`xmin` at the end of a bootstrap) or an integer (the `lsn`). -/
abbrev PyVal := Option Int

/-- Association-list lookup with Python `dict.get` semantics. -/
def alookup (k : String) : List (String × α) → Option α
  | [] => none
  | (k', v) :: rest => if k' = k then some v else alookup k rest

/-- `d[k] = v` on an association list: replace the binding if present,
append it otherwise. -/
def upsert (k : String) (v : α) : List (String × α) → List (String × α)
  | [] => [(k, v)]
  | (k', v') :: rest => if k' = k then (k, v) :: rest else (k', v') :: upsert k v rest

/-- The state dictionary: `currently_syncing` plus
`bookmarks : streamId -> (key -> value)`. -/
structure TPState where
  currently_syncing : Option String := none
  bookmarks : List (String × List (String × PyVal)) := []
  deriving DecidableEq, Repr

/-- `singer.get_bookmark(state, tap_stream_id, key)`: absent entries read as
Python `None`. -/
def get_bookmark (st : TPState) (tap_stream_id key : String) : PyVal :=
  match alookup tap_stream_id st.bookmarks with
  | none => none
  | some m => (alookup key m).join

/-- The raw binding stored under `state['bookmarks'][tap_stream_id][key]`:
`none` when the key is absent, `some none` when the key is bound to Python
`None`. -/
def stored_bookmark (st : TPState) (tap_stream_id key : String) : Option PyVal :=
  alookup key ((alookup tap_stream_id st.bookmarks).getD [])

/-- `singer.write_bookmark`. -/
def write_bookmark (st : TPState) (tap_stream_id key : String) (v : PyVal) : TPState :=
  let entry := upsert key v ((alookup tap_stream_id st.bookmarks).getD [])
  { st with bookmarks := upsert tap_stream_id entry st.bookmarks }

/-- `singer.set_currently_syncing`. -/
def set_currently_syncing (st : TPState) (v : Option String) : TPState :=
  { st with currently_syncing := v }

/-- `singer.get_currently_syncing`. -/
def get_currently_syncing (st : TPState) : Option String :=
  st.currently_syncing

/-- Python truthiness of a bookmark value (`if get_bookmark(...):`):
`None` and `0` are falsy. -/
def pyTruthyVal : PyVal → Bool
  | none => false
  | some n => n != 0

/-- Python truthiness of an optional string (`if currently_syncing:`):
`None` and `""` are falsy. -/
def pyTruthyStr : Option String → Bool
  | none => false
  | some s => s != ""

/-! ### Streams, messages and collaborators -/

/-- The connection configuration dictionary; `do_sync` overwrites `dbname`
per stream (Python line 357). -/
structure ConnConfig where
  host : String := ""
  user : String := ""
  password : String := ""
  port : String := ""
  dbname : Option String := none
  deriving DecidableEq, Repr

/-- The stream-level metadata of a catalog entry, i.e. the values the
orchestrator reads from `metadata.to_map(stream.metadata)` under the empty
breadcrumb.  `selected` and `is_view` model the truthiness of the
corresponding lookups. -/
structure StreamMD where
  selected : Bool := false
  database_name : Option String := none
  replication_method : Option String := none
  is_view : Bool := false
  table_key_properties : Option (List String) := none
  view_key_properties : Option (List String) := none
  deriving DecidableEq, Repr

/-- Column-level metadata under the `('properties', name)` breadcrumb, as
read by `should_sync_column`. -/
structure ColMD where
  inclusion : Option String := none
  selected : Bool := false
  deriving DecidableEq, Repr

/-- A catalog stream as consumed by `do_sync`: identifier, stream name,
stream-level metadata, and the schema's column names paired with their
column-level metadata. -/
structure Stream where
  tap_stream_id : String
  stream : String := ""
  md : StreamMD := {}
  properties : List (String × ColMD) := []
  deriving DecidableEq, Repr

/-- Messages handed to `singer.write_message`.  Stream records are produced
by the strategy collaborators and merely passed through, so their payload is
opaque here. -/
inductive Message where
  | schema (stream : String) (key_properties : Option (List String))
      (bookmark_properties : List String)
  | record (stream : String) (payload : String)
  | state (value : TPState)
  deriving DecidableEq, Repr

/-- The injected strategy collaborators
(`full_table.sync_table`/`sync_view`, `logical_replication.sync_table` and
`logical_replication.fetch_current_lsn`).  They are threaded through an
abstract world `W` so that two calls to `fetch_current_lsn` at different
times may return different positions; each sync call returns the new state
and the messages it wrote. -/
structure Collab (W : Type) where
  fetch_current_lsn : ConnConfig → W → Int × W
  full_sync_table : ConnConfig → Stream → TPState → List String → W → (TPState × List Message) × W
  full_sync_view : ConnConfig → Stream → TPState → List String → W → (TPState × List Message) × W
  log_sync_table : ConnConfig → Stream → TPState → List String → W → (TPState × List Message) × W

/-! ### The orchestrator -/

/-- `should_sync_column` (Python lines 286-296), with the two metadata
lookups for one column fused into a `ColMD`. -/
def should_sync_column (cmd : ColMD) : Bool :=
  if cmd.inclusion = some "unsupported" then false
  else if cmd.selected then true
  else if cmd.inclusion = some "automatic" then true
  else false

/-- Python string comparison: lexicographic on code points (the order used
by `streams.sort` and `desired_columns.sort`). -/
def pyStrLe (a b : String) : Prop := a.data ≤ b.data

instance : DecidableRel pyStrLe := fun a b => inferInstanceAs (Decidable (a.data ≤ b.data))

instance : IsTotal String pyStrLe := ⟨fun a b => le_total a.data b.data⟩

instance : IsTrans String pyStrLe := ⟨fun _ _ _ h h' => le_trans h h'⟩

/-- `s.tap_stream_id`-ascending order on streams (`streams.sort(key=...)`,
Python line 348). -/
def streamLe (a b : Stream) : Prop := pyStrLe a.tap_stream_id b.tap_stream_id

instance : DecidableRel streamLe := fun a b =>
  inferInstanceAs (Decidable (pyStrLe a.tap_stream_id b.tap_stream_id))

instance : IsTotal Stream streamLe :=
  ⟨fun a b => total_of pyStrLe a.tap_stream_id b.tap_stream_id⟩

instance : IsTrans Stream streamLe :=
  ⟨fun _ _ _ h h' => Trans.trans (r := pyStrLe) (s := pyStrLe) h h'⟩

/-- The key-properties argument of the schema message
(`send_schema_message`, Python lines 298-310). -/
def send_schema_key_properties (s : Stream) : Option (List String) :=
  if s.md.is_view then s.md.view_key_properties else s.md.table_key_properties

/-- `is_selected_via_metadata` (Python lines 312-314). -/
def is_selected_via_metadata (s : Stream) : Bool :=
  s.md.selected

/-- The sorted desired-column computation of the per-stream loop
(Python lines 361-362): schema columns passing `should_sync_column`,
sorted ascending. -/
def desired_columns (s : Stream) : List String :=
  List.insertionSort pyStrLe ((s.properties.filter (fun p => should_sync_column p.2)).map (·.1))

/-- `do_sync_full_table` (Python lines 316-323): schema message with no
bookmark properties, then the table or view variant of the full-table
strategy. -/
def do_sync_full_table (collab : Collab W) (cfg : ConnConfig) (s : Stream) (st : TPState)
    (desired : List String) (w : W) : (TPState × List Message) × W :=
  let schemaMsg := Message.schema s.stream (send_schema_key_properties s) []
  let r := if s.md.is_view then collab.full_sync_view cfg s st desired w
           else collab.full_sync_table cfg s st desired w
  ((r.1.1, schemaMsg :: r.1.2), r.2)

/-- `do_sync_logical_replication` (Python lines 325-344).  In the resuming
branch the `LOGGER.info` call itself invokes `fetch_current_lsn`, which is
kept for its world effect.  In the bootstrap branch the end position is
fetched before the full-table scan, and afterwards `xmin = None` and
`lsn = end_lsn` are written into the stream's bookmarks.
(`add_automatic_properties` only mutates the schema payload of the schema
message, which is opaque here.) -/
def do_sync_logical_replication (collab : Collab W) (cfg : ConnConfig) (s : Stream)
    (st : TPState) (desired : List String) (w : W) : (TPState × List Message) × W :=
  if pyTruthyVal (get_bookmark st s.tap_stream_id "lsn") then
    let w0 := (collab.fetch_current_lsn cfg w).2
    let r := collab.log_sync_table cfg s st desired w0
    ((r.1.1, Message.schema s.stream (send_schema_key_properties s) ["lsn"] :: r.1.2), r.2)
  else
    let fetched := collab.fetch_current_lsn cfg w
    let r := collab.full_sync_table cfg s st desired fetched.2
    let st1 := write_bookmark r.1.1 s.tap_stream_id "xmin" none
    let st2 := write_bookmark st1 s.tap_stream_id "lsn" (some fetched.1)
    ((st2, Message.schema s.stream (send_schema_key_properties s) [] :: r.1.2), r.2)

/-- The resolved replication method (Python line 368): stream-level
override, else the configured default. -/
def resolved_method (s : Stream) (dflt : String) : String :=
  s.md.replication_method.getD dflt

/-- The outcome of running (a suffix of) the stream loop: final connection
config, final in-memory state, messages written, warnings logged, final
world, and the exception message if the loop aborted. -/
structure StepOut (W : Type) where
  cfg : ConnConfig
  st : TPState
  msgs : List Message
  warns : List String
  w : W
  err : Option String
  deriving Repr

/-- One iteration of the `for stream in streams` body of `do_sync`
(Python lines 355-382). -/
def syncOneStream (collab : Collab W) (dflt : String) (cfg : ConnConfig) (st : TPState)
    (s : Stream) (w : W) : StepOut W :=
  let cfg1 : ConnConfig := { cfg with dbname := s.md.database_name }
  let st1 := set_currently_syncing st (some s.tap_stream_id)
  let desired := desired_columns s
  if desired = [] then
    ⟨cfg1, st1, [],
      ["There are no columns selected for stream " ++ s.tap_stream_id ++ ", skipping it"],
      w, none⟩
  else
    let rep := resolved_method s dflt
    if rep = "LOG_BASED" ∧ s.md.is_view = true then
      ⟨cfg1, st1, [],
        ["Logical Replication is NOT supported for views. skipping stream " ++ s.tap_stream_id],
        w, none⟩
    else if rep = "LOG_BASED" then
      let r := do_sync_logical_replication collab cfg1 s st1 desired w
      let st2 := set_currently_syncing r.1.1 none
      ⟨cfg1, st2, r.1.2 ++ [Message.state st2], [], r.2, none⟩
    else if rep = "FULL_TABLE" then
      let r := do_sync_full_table collab cfg1 s st1 desired w
      let st2 := set_currently_syncing r.1.1 none
      ⟨cfg1, st2, r.1.2 ++ [Message.state st2], [], r.2, none⟩
    else
      ⟨cfg1, st1, [], [], w, some "only LOG_BASED and FULL_TABLE are supported right now :)"⟩

/-- The stream loop of `do_sync`: sequential processing, stopping at the
first raised exception. -/
def processStreams (collab : Collab W) (dflt : String) :
    List Stream → ConnConfig → TPState → W → StepOut W
  | [], cfg, st, w => ⟨cfg, st, [], [], w, none⟩
  | s :: rest, cfg, st, w =>
    let r := syncOneStream collab dflt cfg st s w
    match r.err with
    | some _ => r
    | none =>
      let r2 := processStreams collab dflt rest r.cfg r.st r.w
      ⟨r2.cfg, r2.st, r.msgs ++ r2.msgs, r.warns ++ r2.warns, r2.w, r2.err⟩

/-- The selected streams of the catalog in `tap_stream_id`-ascending order
(Python lines 347-348).  `List.insertionSort` is a stable sort, as is
Python's `list.sort`. -/
def selectedSortedStreams (catalog : List Stream) : List Stream :=
  List.insertionSort streamLe (catalog.filter (fun s => is_selected_via_metadata s))

/-- The work list after the resume filter (Python lines 350-353):
`dropwhile(lambda s: s.tap_stream_id != currently_syncing, streams)` when
`currently_syncing` is truthy. -/
def workList (catalog : List Stream) (st : TPState) : List Stream :=
  let streams := selectedSortedStreams catalog
  match get_currently_syncing st with
  | none => streams
  | some cs => if cs = "" then streams else streams.dropWhile (fun s => s.tap_stream_id != cs)

/-- `do_sync` (Python lines 346-382). -/
def do_sync (collab : Collab W) (conn_config : ConnConfig) (catalog : List Stream)
    (default_replication_method : String) (state : TPState) (w : W) : StepOut W :=
  processStreams collab default_replication_method (workList catalog state)
    conn_config state w

/-! ### Discovery -/

/-- The per-table grouping built by `produce_table_info`
(Python lines 180-192). -/
structure TableInfo where
  is_view : Bool := false
  row_count : Int := 0
  columns : List (String × Column) := []
  deriving Repr

/-- The catalog entry fields that `discover_columns` assembles
(Python lines 240-247), with the `database-name` and `schema-name` metadata
entries kept as record fields. -/
structure CatalogEntry where
  table : String
  stream : String
  tap_stream_id : String
  database_name : String
  schema_name : String
  column_schemas : List (String × Schema)
  table_key_properties : List String
  deriving DecidableEq, Repr

/-- Error-propagating list map: the Python `for` loops of discovery build
their result lists in order and let exceptions propagate. -/
def mapExcept (f : α → Except String β) : List α → Except String (List β)
  | [] => .ok []
  | x :: xs =>
    match f x with
    | .error e => .error e
    | .ok y =>
      match mapExcept f xs with
      | .error e => .error e
      | .ok ys => .ok (y :: ys)

/-- The body of the inner loop of `discover_columns` for one table:
primary-key list, per-column schemas, and the catalog entry with
`tap_stream_id = database_name + '-' + schema_name + '-' + table_name`. -/
def discover_one_table (database_name schema_name : String) (p : String × TableInfo) :
    Except String CatalogEntry :=
  match mapExcept (fun q => (schema_for_column q.2).map (fun r => (q.1, r.1))) p.2.columns with
  | .error e => .error e
  | .ok colSchemas =>
    .ok { table := p.1,
          stream := p.1,
          tap_stream_id := database_name ++ "-" ++ schema_name ++ "-" ++ p.1,
          database_name := database_name,
          schema_name := schema_name,
          column_schemas := colSchemas,
          table_key_properties :=
            (p.2.columns.filter (fun q => q.2.is_primary_key)).map (·.1) }

/-- `discover_columns` (Python lines 209-249) over the grouped table info of
one database. -/
def discover_columns (database_name : String)
    (table_info : List (String × List (String × TableInfo))) :
    Except String (List CatalogEntry) :=
  match mapExcept (fun p => mapExcept (discover_one_table database_name p.1) p.2) table_info with
  | .error e => .error e
  | .ok ls => .ok ls.flatten

/-- `do_discovery` (Python lines 259-284): discovery runs over every
database of the cluster in turn and the entries accumulate.  The metadata
queries are collaborators, so the function consumes their results: the
database list paired with each database's grouped table info. -/
def do_discovery (all_dbs : List (String × List (String × List (String × TableInfo)))) :
    Except String (List CatalogEntry) :=
  match mapExcept (fun p => discover_columns p.1 p.2) all_dbs with
  | .error e => .error e
  | .ok ls => .ok ls.flatten

/-- The stream identifiers of a discovery run. -/
def discoveredIds (all_dbs : List (String × List (String × List (String × TableInfo)))) :
    Except String (List String) :=
  (do_discovery all_dbs).map (fun es => es.map (·.tap_stream_id))

/-- The `(database, schema, table)` triples present in grouped discovery
input, in traversal order. -/
def triplesOfInput (all_dbs : List (String × List (String × List (String × TableInfo)))) :
    List (String × String × String) :=
  all_dbs.flatMap (fun p => p.2.flatMap (fun q => q.2.map (fun r => (p.1, q.1, r.1))))

/-- The identifier built from one `(database, schema, table)` triple. -/
def mkStreamId (t : String × String × String) : String :=
  t.1 ++ "-" ++ t.2.1 ++ "-" ++ t.2.2

/-- A name that does not contain the `'-'` separator. -/
def noDash (s : String) : Prop := ('-' : Char) ∉ s.data

instance (s : String) : Decidable (noDash s) :=
  inferInstanceAs (Decidable (('-' : Char) ∉ s.data))

/-- The message of the exception raised on an unrecognized replication
method (Python line 379). -/
def unsupportedMethodError : String :=
  "only LOG_BASED and FULL_TABLE are supported right now :)"

/-! ### Concrete fixtures used to instantiate the theorems -/

/-- Collaborators that move no data: the syncs return the state unchanged
and write no messages, and the change-stream position is the constant 7. -/
def trivialCollab : Collab Unit where
  fetch_current_lsn := fun _ w => (7, w)
  full_sync_table := fun _ _ st _ w => ((st, []), w)
  full_sync_view := fun _ _ st _ w => ((st, []), w)
  log_sync_table := fun _ _ st _ w => ((st, []), w)

/-- A selected log-based stream. -/
def sLog : Stream :=
  { tap_stream_id := "db-public-t", stream := "t",
    md := { selected := true, database_name := some "db",
            replication_method := some "LOG_BASED" },
    properties := [("c1", { inclusion := some "automatic" })] }

/-- A selected stream with no method override. -/
def sFull : Stream :=
  { tap_stream_id := "a-b-c", stream := "c",
    md := { selected := true, database_name := some "a" },
    properties := [("c1", { inclusion := some "automatic" })] }

/-- A selected stream with an unrecognized replication method. -/
def sBad : Stream :=
  { tap_stream_id := "a-b-d", stream := "d",
    md := { selected := true, database_name := some "a",
            replication_method := some "INCREMENTAL" },
    properties := [("c1", { inclusion := some "automatic" })] }

/-- A selected full-table stream with a given identifier. -/
def mkSel (tid : String) : Stream :=
  { tap_stream_id := tid, stream := tid,
    md := { selected := true, database_name := some "db" },
    properties := [("c1", { inclusion := some "automatic" })] }

def exampleCatalog : List Stream := [mkSel "A", mkSel "B", mkSel "X", mkSel "Y", mkSel "Z"]

def boolCol : Column := ⟨"c", false, "boolean", none, none, none⟩

def tinfoB : TableInfo := { columns := [("c", boolCol)] }

/-- Two databases whose dash-bearing names make two distinct tables collide
on one stream identifier. -/
def dbsCollide : List (String × List (String × List (String × TableInfo))) :=
  [("a-b", [("c", [("d", tinfoB)])]),
   ("a", [("b-c", [("d", tinfoB)])])]

/-- Two databases with dash-free database and schema names. -/
def dbsGood : List (String × List (String × List (String × TableInfo))) :=
  [("a", [("b", [("d", tinfoB)])]),
   ("z", [("b", [("d", tinfoB)])])]

def entryA : CatalogEntry :=
  { table := "d", stream := "d", tap_stream_id := "a-b-d", database_name := "a",
    schema_name := "b", column_schemas := [("c", { type := some ["null", "boolean"] })],
    table_key_properties := [] }

def entryZ : CatalogEntry :=
  { table := "d", stream := "d", tap_stream_id := "z-b-d", database_name := "z",
    schema_name := "b", column_schemas := [("c", { type := some ["null", "boolean"] })],
    table_key_properties := [] }

/-! ### The type mapper: nullability, numeric capping, totality -/

lemma pk_type_spec (ct : String) (pk : Bool) (hct : ct ≠ "null") :
    ∃ c', c' ≠ "null" ∧ nullable_column ct pk = nullable_column c' pk ∧
      nullable_column ct pk = (if pk then [c'] else ["null", c']) ∧
      (pk = true → ("null" : String) ∉ nullable_column ct pk) := by
  refine ⟨ct, hct, rfl, rfl, ?_⟩
  intro hpk
  subst hpk
  simp [nullable_column]
  exact fun h => hct h.symm

/-- C5: for every column descriptor on which the mapper succeeds with a
supported type, the produced type set is exactly one canonical type when
the column is a primary key and exactly null followed by that type
otherwise; the canonical type is never the string null, so a primary-key
column's type set never contains null. -/
theorem c5_primary_key_nullability (c : Column) (sch : Schema) (ws ts : List String)
    (hok : schema_for_column c = Except.ok (sch, ws)) (hts : sch.type = some ts) :
    ∃ ct, ct ≠ "null" ∧ ts = nullable_column ct c.is_primary_key ∧
      ts = (if c.is_primary_key then [ct] else ["null", ct]) ∧
      (c.is_primary_key = true → ("null" : String) ∉ ts) := by
  unfold schema_for_column at hok
  by_cases h1 : strLower c.sql_data_type ∈ INTEGER_TYPES
  · rw [if_pos h1] at hok
    cases hp : c.numeric_precision with
    | none => rw [hp] at hok; cases hok
    | some p =>
      rw [hp] at hok
      injection hok with h
      injection h with ha hb
      subst ha
      injection hts with h'
      subst h'
      exact pk_type_spec "integer" _ (by decide)
  · rw [if_neg h1] at hok
    by_cases h2 : strLower c.sql_data_type = "bit" ∧ c.character_maximum_length = some 1
    · rw [if_pos h2] at hok
      injection hok with h
      injection h with ha hb
      subst ha
      injection hts with h'
      subst h'
      exact pk_type_spec "boolean" _ (by decide)
    · rw [if_neg h2] at hok
      by_cases h3 : strLower c.sql_data_type = "boolean"
      · rw [if_pos h3] at hok
        injection hok with h
        injection h with ha hb
        subst ha
        injection hts with h'
        subst h'
        exact pk_type_spec "boolean" _ (by decide)
      · rw [if_neg h3] at hok
        by_cases h4 : strLower c.sql_data_type = "uuid"
        · rw [if_pos h4] at hok
          injection hok with h
          injection h with ha hb
          subst ha
          injection hts with h'
          subst h'
          exact pk_type_spec "string" _ (by decide)
        · rw [if_neg h4] at hok
          by_cases h5 : strLower c.sql_data_type = "hstore"
          · rw [if_pos h5] at hok
            injection hok with h
            injection h with ha hb
            subst ha
            injection hts with h'
            subst h'
            exact pk_type_spec "string" _ (by decide)
          · rw [if_neg h5] at hok
            by_cases h6 : strLower c.sql_data_type ∈ JSON_TYPES
            · rw [if_pos h6] at hok
              injection hok with h
              injection h with ha hb
              subst ha
              injection hts with h'
              subst h'
              exact pk_type_spec "string" _ (by decide)
            · rw [if_neg h6] at hok
              by_cases h7 : strLower c.sql_data_type = "numeric"
              · rw [if_pos h7] at hok
                injection hok with h
                injection h with ha hb
                subst ha
                injection hts with h'
                subst h'
                exact pk_type_spec "number" _ (by decide)
              · rw [if_neg h7] at hok
                by_cases h8 : strLower c.sql_data_type ∈
                    ["time without time zone", "time with time zone"]
                · rw [if_pos h8] at hok
                  injection hok with h
                  injection h with ha hb
                  subst ha
                  injection hts with h'
                  subst h'
                  exact pk_type_spec "string" _ (by decide)
                · rw [if_neg h8] at hok
                  by_cases h9 : strLower c.sql_data_type ∈
                      ["date", "timestamp without time zone", "timestamp with time zone"]
                  · rw [if_pos h9] at hok
                    injection hok with h
                    injection h with ha hb
                    subst ha
                    injection hts with h'
                    subst h'
                    exact pk_type_spec "string" _ (by decide)
                  · rw [if_neg h9] at hok
                    by_cases h10 : strLower c.sql_data_type ∈ FLOAT_TYPES
                    · rw [if_pos h10] at hok
                      injection hok with h
                      injection h with ha hb
                      subst ha
                      injection hts with h'
                      subst h'
                      exact pk_type_spec "number" _ (by decide)
                    · rw [if_neg h10] at hok
                      by_cases h11 : strLower c.sql_data_type = "text"
                      · rw [if_pos h11] at hok
                        injection hok with h
                        injection h with ha hb
                        subst ha
                        injection hts with h'
                        subst h'
                        exact pk_type_spec "string" _ (by decide)
                      · rw [if_neg h11] at hok
                        by_cases h12 : strLower c.sql_data_type = "character varying"
                        · rw [if_pos h12] at hok
                          injection hok with h
                          injection h with ha hb
                          subst ha
                          injection hts with h'
                          subst h'
                          exact pk_type_spec "string" _ (by decide)
                        · rw [if_neg h12] at hok
                          by_cases h13 : strLower c.sql_data_type = "character"
                          · rw [if_pos h13] at hok
                            injection hok with h
                            injection h with ha hb
                            subst ha
                            injection hts with h'
                            subst h'
                            exact pk_type_spec "string" _ (by decide)
                          · rw [if_neg h13] at hok
                            injection hok with h
                            injection h with ha hb
                            subst ha
                            cases hts

/-- C5, witness: a primary-key boolean column maps to the type set
containing exactly the string boolean, without null. -/
theorem c5_primary_key_nullability_witness :
    schema_for_column (Column.mk "id" true "boolean" none none none) =
      Except.ok (({ type := some ["boolean"] } : Schema), []) ∧
    (∃ ct, ct ≠ "null" ∧ (["boolean"] : List String) = nullable_column ct true ∧
      (["boolean"] : List String) = (if true then [ct] else ["null", ct]) ∧
      (true = true → ("null" : String) ∉ (["boolean"] : List String))) :=
  ⟨rfl, c5_primary_key_nullability (Column.mk "id" true "boolean" none none none)
    { type := some ["boolean"] } [] ["boolean"] rfl rfl⟩

/-- C3, counterexample: an integer-family column whose numeric precision is
null makes `schema_for_column` fail (Python raises a `TypeError` at
`2 ** (c.numeric_precision - 1)`), so the mapper is not total on all
descriptors. -/
theorem c3_counterexample :
    schema_for_column (Column.mk "c" false "integer" none none none) =
      Except.error "TypeError: unsupported operand type for -: NoneType and int" ∧
    (schema_for_column (Column.mk "c" false "integer" none none none)).isOk = false :=
  ⟨rfl, rfl⟩

/-- C3, amended: `schema_for_column` deterministically produces a schema
(possibly the unsupported one) for every descriptor except an
integer-family column with null numeric precision, where it raises. -/
theorem c3_total_amended (c : Column)
    (h : strLower c.sql_data_type ∈ INTEGER_TYPES → c.numeric_precision ≠ none) :
    (schema_for_column c).isOk = true := by
  unfold schema_for_column
  by_cases h1 : strLower c.sql_data_type ∈ INTEGER_TYPES
  · rw [if_pos h1]
    cases hp : c.numeric_precision with
    | none => exact absurd hp (h h1)
    | some p => rfl
  · rw [if_neg h1]
    by_cases h2 : strLower c.sql_data_type = "bit" ∧ c.character_maximum_length = some 1
    · rw [if_pos h2]; rfl
    · rw [if_neg h2]
      by_cases h3 : strLower c.sql_data_type = "boolean"
      · rw [if_pos h3]; rfl
      · rw [if_neg h3]
        by_cases h4 : strLower c.sql_data_type = "uuid"
        · rw [if_pos h4]; rfl
        · rw [if_neg h4]
          by_cases h5 : strLower c.sql_data_type = "hstore"
          · rw [if_pos h5]; rfl
          · rw [if_neg h5]
            by_cases h6 : strLower c.sql_data_type ∈ JSON_TYPES
            · rw [if_pos h6]; rfl
            · rw [if_neg h6]
              by_cases h7 : strLower c.sql_data_type = "numeric"
              · rw [if_pos h7]; rfl
              · rw [if_neg h7]
                by_cases h8 : strLower c.sql_data_type ∈
                    ["time without time zone", "time with time zone"]
                · rw [if_pos h8]; rfl
                · rw [if_neg h8]
                  by_cases h9 : strLower c.sql_data_type ∈
                      ["date", "timestamp without time zone", "timestamp with time zone"]
                  · rw [if_pos h9]; rfl
                  · rw [if_neg h9]
                    by_cases h10 : strLower c.sql_data_type ∈ FLOAT_TYPES
                    · rw [if_pos h10]; rfl
                    · rw [if_neg h10]
                      by_cases h11 : strLower c.sql_data_type = "text"
                      · rw [if_pos h11]; rfl
                      · rw [if_neg h11]
                        by_cases h12 : strLower c.sql_data_type = "character varying"
                        · rw [if_pos h12]; rfl
                        · rw [if_neg h12]
                          by_cases h13 : strLower c.sql_data_type = "character"
                          · rw [if_pos h13]; rfl
                          · rw [if_neg h13]; rfl

/-- C3, witness: an integer column with a concrete precision maps
successfully. -/
theorem c3_total_amended_witness :
    (strLower (Column.mk "id" true "integer" none (some 32) none).sql_data_type ∈
        INTEGER_TYPES →
      (Column.mk "id" true "integer" none (some 32) none).numeric_precision ≠ none) ∧
    (schema_for_column (Column.mk "id" true "integer" none (some 32) none)).isOk = true :=
  ⟨by decide, c3_total_amended _ (by decide)⟩

/-- C4: for a numeric column the mapper uses the effective scale
min(numeric_scale, 38) (38 when null) and effective precision
min(numeric_precision, 100) (100 when null), records one warning per
capping event instead of raising, and produces the exclusive bounds
10^(precision − scale) and its negation together with
multipleOf = 10^(−scale). -/
theorem c4_numeric_capping (c : Column) (h : strLower c.sql_data_type = "numeric") :
    ∃ scale precision : Int,
      scale = (match c.numeric_scale with
               | none => MAX_SCALE
               | some s => min s MAX_SCALE) ∧
      precision = (match c.numeric_precision with
                   | none => MAX_PRECISION
                   | some p => min p MAX_PRECISION) ∧
      schema_for_column c = Except.ok
        (({ type := some (nullable_column "number" c.is_primary_key),
            exclusiveMaximum := some true,
            maximum := some ((10 : ℚ) ^ (precision - scale)),
            multipleOf := some ((10 : ℚ) ^ (-scale)),
            exclusiveMinimum := some true,
            minimum := some (-(10 : ℚ) ^ (precision - scale)) } : Schema),
          ((match c.numeric_scale with
            | none => [scaleWarning]
            | some s => if s > MAX_SCALE then [scaleWarning] else []) ++
           (match c.numeric_precision with
            | none => [precisionWarning]
            | some p => if p > MAX_PRECISION then [precisionWarning] else []))) := by
  have h1 : strLower c.sql_data_type ∉ INTEGER_TYPES := by rw [h]; decide
  have h2 : ¬ (strLower c.sql_data_type = "bit" ∧ c.character_maximum_length = some 1) := by
    rintro ⟨hb, -⟩
    rw [h] at hb
    exact absurd hb (by decide)
  have h3 : ¬ strLower c.sql_data_type = "boolean" := by rw [h]; decide
  have h4 : ¬ strLower c.sql_data_type = "uuid" := by rw [h]; decide
  have h5 : ¬ strLower c.sql_data_type = "hstore" := by rw [h]; decide
  have h6 : strLower c.sql_data_type ∉ JSON_TYPES := by rw [h]; decide
  refine ⟨_, _, rfl, rfl, ?_⟩
  unfold schema_for_column
  rw [if_neg h1, if_neg h2, if_neg h3, if_neg h4, if_neg h5, if_neg h6, if_pos h]
  cases hs : c.numeric_scale with
  | none =>
    cases hp : c.numeric_precision with
    | none => simp only [zero_sub]
    | some p =>
      rcases lt_or_le MAX_PRECISION p with hgt | hle
      · simp only [if_pos hgt, min_eq_right hgt.le, zero_sub]
      · simp only [if_neg (not_lt.mpr hle), min_eq_left hle, zero_sub]
  | some s =>
    rcases lt_or_le MAX_SCALE s with hsgt | hsle
    · cases hp : c.numeric_precision with
      | none => simp only [if_pos hsgt, min_eq_right hsgt.le, zero_sub]
      | some p =>
        rcases lt_or_le MAX_PRECISION p with hgt | hle
        · simp only [if_pos hsgt, min_eq_right hsgt.le, if_pos hgt, min_eq_right hgt.le,
            zero_sub]
        · simp only [if_pos hsgt, min_eq_right hsgt.le, if_neg (not_lt.mpr hle),
            min_eq_left hle, zero_sub]
    · cases hp : c.numeric_precision with
      | none => simp only [if_neg (not_lt.mpr hsle), min_eq_left hsle, zero_sub]
      | some p =>
        rcases lt_or_le MAX_PRECISION p with hgt | hle
        · simp only [if_neg (not_lt.mpr hsle), min_eq_left hsle, if_pos hgt,
            min_eq_right hgt.le, zero_sub]
        · simp only [if_neg (not_lt.mpr hsle), min_eq_left hsle, if_neg (not_lt.mpr hle),
            min_eq_left hle, zero_sub]

/-- C4, witness: numeric_scale = 40 is capped to 38 with a scale warning;
numeric_precision = 50 stays. -/
theorem c4_numeric_capping_witness :
    ∃ scale precision : Int, scale = min 40 MAX_SCALE ∧ precision = min 50 MAX_PRECISION ∧
      schema_for_column (Column.mk "c" false "numeric" none (some 50) (some 40)) = Except.ok
        (({ type := some (nullable_column "number" false),
            exclusiveMaximum := some true,
            maximum := some ((10 : ℚ) ^ (precision - scale)),
            multipleOf := some ((10 : ℚ) ^ (-scale)),
            exclusiveMinimum := some true,
            minimum := some (-(10 : ℚ) ^ (precision - scale)) } : Schema),
          [scaleWarning]) :=
  c4_numeric_capping (Column.mk "c" false "numeric" none (some 50) (some 40)) (by decide)

/-! ### Bookmark writes and the snapshot-to-change-stream transition -/

lemma alookup_upsert_self (k : String) (v : α) (m : List (String × α)) :
    alookup k (upsert k v m) = some v := by
  induction m with
  | nil => simp [upsert, alookup]
  | cons p rest ih =>
    obtain ⟨k', v'⟩ := p
    by_cases hk : k' = k
    · subst hk
      simp [upsert, alookup]
    · simp [upsert, alookup, hk, ih]

lemma alookup_upsert_ne (k k' : String) (hne : k' ≠ k) (v : α) (m : List (String × α)) :
    alookup k' (upsert k v m) = alookup k' m := by
  induction m with
  | nil => simp [upsert, alookup, Ne.symm hne]
  | cons p rest ih =>
    obtain ⟨a, b⟩ := p
    by_cases ha : a = k
    · subst ha
      simp [upsert, alookup, Ne.symm hne]
    · simp [upsert, alookup, ha, ih]

lemma stored_bookmark_write_self (st : TPState) (tid key : String) (v : PyVal) :
    stored_bookmark (write_bookmark st tid key v) tid key = some v := by
  unfold stored_bookmark write_bookmark
  simp [alookup_upsert_self]

lemma stored_bookmark_write_ne (st : TPState) (tid key key' : String) (hne : key' ≠ key)
    (v : PyVal) :
    stored_bookmark (write_bookmark st tid key v) tid key' = stored_bookmark st tid key' := by
  unfold stored_bookmark write_bookmark
  simp [alookup_upsert_self, alookup_upsert_ne _ _ hne]

/-- C2: a log-based stream with no truthy lsn bookmark emits a plain schema
message first (no bookmark properties), runs the full-table bootstrap on
the world reached after the lsn fetch, and its final bookmark entry holds
both keys: xmin bound to None and lsn bound to the change-stream position
fetched from the world as it was before the scan. -/
theorem c2_logbased_first_run {W : Type} (collab : Collab W) (cfg : ConnConfig) (s : Stream)
    (st : TPState) (desired : List String) (w : W)
    (h : pyTruthyVal (get_bookmark st s.tap_stream_id "lsn") = false) :
    (do_sync_logical_replication collab cfg s st desired w).1.2 =
      Message.schema s.stream (send_schema_key_properties s) [] ::
        (collab.full_sync_table cfg s st desired (collab.fetch_current_lsn cfg w).2).1.2 ∧
    (do_sync_logical_replication collab cfg s st desired w).2 =
      (collab.full_sync_table cfg s st desired (collab.fetch_current_lsn cfg w).2).2 ∧
    stored_bookmark (do_sync_logical_replication collab cfg s st desired w).1.1
        s.tap_stream_id "xmin" = some none ∧
    stored_bookmark (do_sync_logical_replication collab cfg s st desired w).1.1
        s.tap_stream_id "lsn" = some (some (collab.fetch_current_lsn cfg w).1) := by
  have hst : (do_sync_logical_replication collab cfg s st desired w).1.1 =
      write_bookmark (write_bookmark (collab.full_sync_table cfg s st desired
          (collab.fetch_current_lsn cfg w).2).1.1 s.tap_stream_id "xmin" none)
        s.tap_stream_id "lsn" (some (collab.fetch_current_lsn cfg w).1) := by
    unfold do_sync_logical_replication
    rw [if_neg (by simp [h])]
  refine ⟨?_, ?_, ?_, ?_⟩
  · unfold do_sync_logical_replication
    rw [if_neg (by simp [h])]
  · unfold do_sync_logical_replication
    rw [if_neg (by simp [h])]
  · rw [hst, stored_bookmark_write_ne _ _ _ _ (by decide), stored_bookmark_write_self]
  · rw [hst, stored_bookmark_write_self]

/-- C2, witness: on an empty state the first log-based sync of the fixture
stream emits only the plain schema message and stores xmin = None and
lsn = 7 (the pre-scan fetch). -/
theorem c2_witness :
    pyTruthyVal (get_bookmark ({} : TPState) sLog.tap_stream_id "lsn") = false ∧
    (do_sync_logical_replication trivialCollab ({} : ConnConfig) sLog {} ["c1"] ()).1.2 =
      [Message.schema "t" none []] ∧
    stored_bookmark (do_sync_logical_replication trivialCollab ({} : ConnConfig) sLog {}
        ["c1"] ()).1.1 sLog.tap_stream_id "xmin" = some none ∧
    stored_bookmark (do_sync_logical_replication trivialCollab ({} : ConnConfig) sLog {}
        ["c1"] ()).1.1 sLog.tap_stream_id "lsn" = some (some 7) := by
  have h := c2_logbased_first_run trivialCollab ({} : ConnConfig) sLog {} ["c1"] () rfl
  exact ⟨rfl, h.1, h.2.2.1, h.2.2.2⟩

/-! ### The orchestrator loop -/

lemma syncOneStream_unknown_method (collab : Collab W) (dflt : String) (cfg : ConnConfig)
    (st : TPState) (s : Stream) (w : W) (hne : desired_columns s ≠ [])
    (hb1 : resolved_method s dflt ≠ "LOG_BASED")
    (hb2 : resolved_method s dflt ≠ "FULL_TABLE") :
    syncOneStream collab dflt cfg st s w =
      ⟨{ cfg with dbname := s.md.database_name },
        set_currently_syncing st (some s.tap_stream_id), [], [], w,
        some "only LOG_BASED and FULL_TABLE are supported right now :)"⟩ := by
  unfold syncOneStream
  rw [if_neg hne, if_neg (fun hc => hb1 hc.1), if_neg hb1, if_neg hb2]

lemma processStreams_append (collab : Collab W) (dflt : String) (xs ys : List Stream)
    (cfg : ConnConfig) (st : TPState) (w : W) :
    processStreams collab dflt (xs ++ ys) cfg st w =
      (let r := processStreams collab dflt xs cfg st w
       match r.err with
       | some _ => r
       | none =>
         let r2 := processStreams collab dflt ys r.cfg r.st r.w
         ⟨r2.cfg, r2.st, r.msgs ++ r2.msgs, r.warns ++ r2.warns, r2.w, r2.err⟩) := by
  induction xs generalizing cfg st w with
  | nil => simp [processStreams]
  | cons s rest ih =>
    simp only [List.cons_append, processStreams]
    cases hr : (syncOneStream collab dflt cfg st s w).err with
    | some e => simp [hr]
    | none =>
      cases hrr : (processStreams collab dflt rest (syncOneStream collab dflt cfg st s w).cfg
          (syncOneStream collab dflt cfg st s w).st
          (syncOneStream collab dflt cfg st s w).w).err with
      | some e => simp [hr, ih, hrr]
      | none => simp [hr, ih, hrr, List.append_assoc]

/-- C7: when a stream's resolved replication method is neither LOG_BASED
nor FULL_TABLE, the run aborts at that stream with the raised exception:
no message beyond the prior streams' output is emitted, the offending
stream's bookmarks are untouched (only currently_syncing was set), the
world is unchanged, and the streams after the offending one never
influence the outcome. -/
theorem c7_unknown_method_aborts {W : Type} (collab : Collab W) (dflt : String)
    (cfg : ConnConfig) (st : TPState) (w : W) (pre rest : List Stream) (s : Stream)
    (hne : desired_columns s ≠ [])
    (hb1 : resolved_method s dflt ≠ "LOG_BASED")
    (hb2 : resolved_method s dflt ≠ "FULL_TABLE")
    (hpre : (processStreams collab dflt pre cfg st w).err = none) :
    (processStreams collab dflt (pre ++ s :: rest) cfg st w).err =
      some unsupportedMethodError ∧
    (processStreams collab dflt (pre ++ s :: rest) cfg st w).msgs =
      (processStreams collab dflt pre cfg st w).msgs ∧
    (processStreams collab dflt (pre ++ s :: rest) cfg st w).st.bookmarks =
      (processStreams collab dflt pre cfg st w).st.bookmarks ∧
    (processStreams collab dflt (pre ++ s :: rest) cfg st w).st.currently_syncing =
      some s.tap_stream_id ∧
    (processStreams collab dflt (pre ++ s :: rest) cfg st w).w =
      (processStreams collab dflt pre cfg st w).w ∧
    (∀ rest', processStreams collab dflt (pre ++ s :: rest') cfg st w =
      processStreams collab dflt (pre ++ s :: rest) cfg st w) := by
  have hkey : ∀ rest', processStreams collab dflt (pre ++ s :: rest') cfg st w =
      ⟨{ (processStreams collab dflt pre cfg st w).cfg with dbname := s.md.database_name },
        set_currently_syncing (processStreams collab dflt pre cfg st w).st
          (some s.tap_stream_id),
        (processStreams collab dflt pre cfg st w).msgs,
        (processStreams collab dflt pre cfg st w).warns,
        (processStreams collab dflt pre cfg st w).w,
        some unsupportedMethodError⟩ := by
    intro rest'
    rw [processStreams_append]
    simp only [hpre, processStreams,
      syncOneStream_unknown_method collab dflt _ _ s _ hne hb1 hb2, unsupportedMethodError,
      List.append_nil]
  refine ⟨?_, ?_, ?_, ?_, ?_, ?_⟩
  · rw [hkey rest]
  · rw [hkey rest]
  · rw [hkey rest]
    simp [set_currently_syncing]
  · rw [hkey rest]
    simp [set_currently_syncing]
  · rw [hkey rest]
  · intro rest'
    rw [hkey rest, hkey rest']

/-- C7, witness: a single stream with replication method INCREMENTAL makes
the run abort with the unsupported-method exception before any message is
written. -/
theorem c7_witness :
    desired_columns sBad ≠ [] ∧
    (processStreams trivialCollab "FULL_TABLE" [sBad] ({} : ConnConfig) {} ()).err =
      some unsupportedMethodError ∧
    (processStreams trivialCollab "FULL_TABLE" [sBad] ({} : ConnConfig) {} ()).msgs = [] := by
  have h := c7_unknown_method_aborts trivialCollab "FULL_TABLE" {} {} () [] [] sBad
    (by decide) (by decide) (by decide) rfl
  exact ⟨by decide, h.1, h.2.1⟩

lemma syncOneStream_empty_columns (collab : Collab W) (dflt : String) (cfg : ConnConfig)
    (st : TPState) (s : Stream) (w : W) (hempty : desired_columns s = []) :
    syncOneStream collab dflt cfg st s w =
      ⟨{ cfg with dbname := s.md.database_name },
        set_currently_syncing st (some s.tap_stream_id), [],
        ["There are no columns selected for stream " ++ s.tap_stream_id ++ ", skipping it"],
        w, none⟩ := by
  unfold syncOneStream
  rw [if_pos hempty]

/-- C8: a stream with an empty desired-column set is skipped with a
warning: its iteration emits no message, its bookmarks are untouched, the
world is unchanged, and the loop continues with the next stream (the run
over the skipped stream followed by the rest equals the run over the rest
started from the post-skip bookkeeping state, plus the warning). -/
theorem c8_empty_columns_skip {W : Type} (collab : Collab W) (dflt : String)
    (cfg : ConnConfig) (st : TPState) (s : Stream) (rest : List Stream) (w : W)
    (hempty : desired_columns s = []) :
    (syncOneStream collab dflt cfg st s w).err = none ∧
    (syncOneStream collab dflt cfg st s w).msgs = [] ∧
    (syncOneStream collab dflt cfg st s w).warns =
      ["There are no columns selected for stream " ++ s.tap_stream_id ++ ", skipping it"] ∧
    (syncOneStream collab dflt cfg st s w).st.bookmarks = st.bookmarks ∧
    (syncOneStream collab dflt cfg st s w).w = w ∧
    processStreams collab dflt (s :: rest) cfg st w =
      (let r2 := processStreams collab dflt rest { cfg with dbname := s.md.database_name }
          (set_currently_syncing st (some s.tap_stream_id)) w
       ⟨r2.cfg, r2.st, r2.msgs,
         ("There are no columns selected for stream " ++ s.tap_stream_id ++ ", skipping it")
           :: r2.warns, r2.w, r2.err⟩) := by
  have hkey := syncOneStream_empty_columns collab dflt cfg st s w hempty
  refine ⟨by rw [hkey], by rw [hkey], by rw [hkey], ?_, by rw [hkey], ?_⟩
  · rw [hkey]
    simp [set_currently_syncing]
  · simp only [processStreams, hkey, List.nil_append, List.singleton_append]

/-- C8, witness: a selected stream whose schema has no columns is skipped
with the warning and produces no messages. -/
theorem c8_witness :
    desired_columns (Stream.mk "a-b-e" "e" { selected := true } []) = [] ∧
    (syncOneStream trivialCollab "FULL_TABLE" ({} : ConnConfig) {}
        (Stream.mk "a-b-e" "e" { selected := true } []) ()).msgs = [] ∧
    (syncOneStream trivialCollab "FULL_TABLE" ({} : ConnConfig) {}
        (Stream.mk "a-b-e" "e" { selected := true } []) ()).warns =
      ["There are no columns selected for stream a-b-e, skipping it"] := by
  have h := c8_empty_columns_skip trivialCollab "FULL_TABLE" {} {}
    (Stream.mk "a-b-e" "e" { selected := true } []) [] () rfl
  exact ⟨rfl, h.2.1, h.2.2.1⟩

/-- C9: every iteration whose dispatch completes finishes without error,
leaves currently_syncing cleared to null in its final snapshot, and its
message list ends with one state message carrying exactly that final
snapshot — so the per-stream checkpoint is emitted after the clear and
reflects every bookmark write of the completed stream. -/
theorem c9_checkpoint_and_emit {W : Type} (collab : Collab W) (dflt : String)
    (cfg : ConnConfig) (st : TPState) (s : Stream) (w : W)
    (hne : desired_columns s ≠ [])
    (hview : ¬(resolved_method s dflt = "LOG_BASED" ∧ s.md.is_view = true))
    (hsup : resolved_method s dflt = "LOG_BASED" ∨ resolved_method s dflt = "FULL_TABLE") :
    (syncOneStream collab dflt cfg st s w).err = none ∧
    (syncOneStream collab dflt cfg st s w).st.currently_syncing = none ∧
    ∃ ms, (syncOneStream collab dflt cfg st s w).msgs =
      ms ++ [Message.state (syncOneStream collab dflt cfg st s w).st] := by
  rcases hsup with hlb | hft
  · have hkey : syncOneStream collab dflt cfg st s w =
        (let r := do_sync_logical_replication collab { cfg with dbname := s.md.database_name }
            s (set_currently_syncing st (some s.tap_stream_id)) (desired_columns s) w
         let st2 := set_currently_syncing r.1.1 none
         ⟨{ cfg with dbname := s.md.database_name }, st2, r.1.2 ++ [Message.state st2], [],
           r.2, none⟩) := by
      unfold syncOneStream
      rw [if_neg hne, if_neg hview, if_pos hlb]
    rw [hkey]
    exact ⟨rfl, rfl, _, rfl⟩
  · have hnlb : resolved_method s dflt ≠ "LOG_BASED" := by
      rw [hft]
      decide
    have hkey : syncOneStream collab dflt cfg st s w =
        (let r := do_sync_full_table collab { cfg with dbname := s.md.database_name }
            s (set_currently_syncing st (some s.tap_stream_id)) (desired_columns s) w
         let st2 := set_currently_syncing r.1.1 none
         ⟨{ cfg with dbname := s.md.database_name }, st2, r.1.2 ++ [Message.state st2], [],
           r.2, none⟩) := by
      unfold syncOneStream
      rw [if_neg hne, if_neg (fun hc => hnlb hc.1), if_neg hnlb, if_pos hft]
    rw [hkey]
    exact ⟨rfl, rfl, _, rfl⟩

/-- C9, witness: a completed full-table stream ends its messages with the
state snapshot whose currently_syncing is null. -/
theorem c9_witness :
    (syncOneStream trivialCollab "FULL_TABLE" ({} : ConnConfig) {} sFull ()).err = none ∧
    (syncOneStream trivialCollab "FULL_TABLE" ({} : ConnConfig) {}
      sFull ()).st.currently_syncing = none ∧
    ∃ ms, (syncOneStream trivialCollab "FULL_TABLE" ({} : ConnConfig) {} sFull ()).msgs =
      ms ++ [Message.state (syncOneStream trivialCollab "FULL_TABLE" ({} : ConnConfig) {}
        sFull ()).st] :=
  c9_checkpoint_and_emit trivialCollab "FULL_TABLE" {} {} sFull () (by decide) (by decide)
    (Or.inr rfl)

/-! ### Selection, ordering and resume -/

lemma dropWhile_first_false (p : α → Bool) :
    ∀ l : List α, (∃ x ∈ l, p x = false) →
      ∃ y ys, l.dropWhile p = y :: ys ∧ p y = false
  | [], h => absurd h (by simp)
  | a :: l, h => by
    by_cases ha : p a
    · rw [List.dropWhile_cons, if_pos ha]
      obtain ⟨x, hx, hpx⟩ := h
      rcases List.mem_cons.mp hx with rfl | hx'
      · rw [ha] at hpx
        cases hpx
      · exact dropWhile_first_false p l ⟨x, hx', hpx⟩
    · rw [List.dropWhile_cons, if_neg ha]
      exact ⟨a, l, rfl, by simpa using ha⟩

lemma sorted_head_of_mem_empty {l : List Stream}
    (hs : List.Pairwise streamLe l) {m : Stream} (hm : m ∈ l) (hid : m.tap_stream_id = "") :
    ∃ y ys, l = y :: ys ∧ y.tap_stream_id = "" := by
  cases l with
  | nil => cases hm
  | cons y ys =>
    refine ⟨y, ys, rfl, ?_⟩
    rcases List.mem_cons.mp hm with rfl | hm'
    · exact hid
    · have hle : streamLe y m := (List.pairwise_cons.mp hs).1 m hm'
      have hle' : y.tap_stream_id.data ≤ m.tap_stream_id.data := hle
      rw [hid] at hle'
      have hdata : y.tap_stream_id.data = [] := by
        cases hy : y.tap_stream_id.data with
        | nil => rfl
        | cons a t =>
          rw [hy] at hle'
          exact absurd (List.nil_lt_cons a t) (not_lt.mpr hle')
      exact String.ext hdata

/-- C1: the work list of `do_sync` is obtained by keeping exactly the
catalog entries marked selected, sorting them by `tap_stream_id`
ascending, and, when `currently_syncing` names a stream of that sorted
list, dropping exactly the streams strictly before the first occurrence
of the marker: the remaining suffix starts at the marker and is what
`processStreams` runs in order. -/
theorem c1_selection_and_resume {W : Type} (collab : Collab W) (conn_config : ConnConfig)
    (dflt : String) (catalog : List Stream) (st : TPState) (cs : String) (w : W)
    (hcs : get_currently_syncing st = some cs)
    (hmem : cs ∈ (selectedSortedStreams catalog).map Stream.tap_stream_id) :
    List.Perm (selectedSortedStreams catalog)
      (catalog.filter (fun s => is_selected_via_metadata s)) ∧
    List.Pairwise (fun a b : Stream => a.tap_stream_id ≤ b.tap_stream_id)
      (selectedSortedStreams catalog) ∧
    do_sync collab conn_config catalog dflt st w =
      processStreams collab dflt (workList catalog st) conn_config st w ∧
    (∃ pre, selectedSortedStreams catalog = pre ++ workList catalog st ∧
      ∀ p ∈ pre, p.tap_stream_id ≠ cs) ∧
    (workList catalog st).head?.map Stream.tap_stream_id = some cs := by
  obtain ⟨m, hm, hmid⟩ := List.mem_map.mp hmem
  refine ⟨List.perm_insertionSort _ _, ?_, rfl, ?_, ?_⟩
  · exact (List.sorted_insertionSort streamLe _).imp
      (fun h => String.le_iff_toList_le.mpr h)
  · by_cases hne : cs = ""
    · subst hne
      refine ⟨[], ?_, by simp⟩
      simp [workList, hcs]
    · refine ⟨(selectedSortedStreams catalog).takeWhile (fun s => s.tap_stream_id != cs),
        ?_, ?_⟩
      · simp only [workList, hcs, if_neg hne]
        exact (List.takeWhile_append_dropWhile _ _).symm
      · intro p hp
        have := List.mem_takeWhile_imp hp
        simpa using this
  · by_cases hne : cs = ""
    · subst hne
      obtain ⟨y, ys, hcons, hyid⟩ :=
        sorted_head_of_mem_empty (List.sorted_insertionSort streamLe _) hm hmid
      have hwl : workList catalog st = selectedSortedStreams catalog := by
        simp [workList, hcs]
      rw [hwl, show selectedSortedStreams catalog = y :: ys from hcons]
      simp [hyid]
    · obtain ⟨y, ys, hdrop, hpy⟩ := dropWhile_first_false (fun s => s.tap_stream_id != cs)
        (selectedSortedStreams catalog) ⟨m, hm, by simp [hmid]⟩
      have hyid : y.tap_stream_id = cs := by simpa using hpy
      simp [workList, hcs, hne, hdrop, hyid]

/-- C1, witness: with sorted selected streams A, B, X, Y, Z and
currently_syncing = X the work list is exactly X, Y, Z in that order. -/
theorem c1_witness :
    get_currently_syncing ({ currently_syncing := some "X" } : TPState) = some "X" ∧
    "X" ∈ (selectedSortedStreams exampleCatalog).map Stream.tap_stream_id ∧
    workList exampleCatalog { currently_syncing := some "X" } =
      [mkSel "X", mkSel "Y", mkSel "Z"] ∧
    (∃ pre, selectedSortedStreams exampleCatalog =
        pre ++ workList exampleCatalog { currently_syncing := some "X" } ∧
      ∀ p ∈ pre, p.tap_stream_id ≠ "X") ∧
    (workList exampleCatalog { currently_syncing := some "X" }).head?.map
      Stream.tap_stream_id = some "X" := by
  have h := c1_selection_and_resume trivialCollab {} "FULL_TABLE" exampleCatalog
    { currently_syncing := some "X" } "X" () rfl (by decide)
  exact ⟨rfl, by decide, by decide, h.2.2.2.1, h.2.2.2.2⟩

/-- C10, counterexample: an empty string is a non-null marker that names no
stream of the sorted selected list, yet the sync does not drop everything:
Python's truthiness test treats the empty marker as absent, so the whole
work list is processed and messages are emitted. -/
theorem c10_counterexample :
    get_currently_syncing ({ currently_syncing := some "" } : TPState) = some "" ∧
    ("" : String) ∉ (selectedSortedStreams [sFull]).map Stream.tap_stream_id ∧
    workList [sFull] { currently_syncing := some "" } ≠ [] ∧
    (do_sync trivialCollab {} [sFull] "FULL_TABLE"
      { currently_syncing := some "" } ()).msgs ≠ [] :=
  ⟨rfl, by decide, by decide, by decide⟩

/-- C10, amended: when `currently_syncing` holds a non-null and non-empty
string that does not occur among the sorted selected stream identifiers,
the resume filter drops every stream: the work list is empty and `do_sync`
processes nothing and emits nothing (an empty-string marker is falsy and
disables the filter instead). -/
theorem c10_unmatched_marker {W : Type} (collab : Collab W) (conn_config : ConnConfig)
    (dflt : String) (catalog : List Stream) (st : TPState) (cs : String) (w : W)
    (hcs : get_currently_syncing st = some cs) (hne : cs ≠ "")
    (hnot : cs ∉ (selectedSortedStreams catalog).map Stream.tap_stream_id) :
    workList catalog st = [] ∧
    do_sync collab conn_config catalog dflt st w = ⟨conn_config, st, [], [], w, none⟩ := by
  have hwl : workList catalog st = [] := by
    simp only [workList, hcs]
    rw [if_neg hne, List.dropWhile_eq_nil_iff]
    intro x hx
    simp only [bne_iff_ne, ne_eq]
    exact fun h => hnot (h ▸ List.mem_map_of_mem _ hx)
  refine ⟨hwl, ?_⟩
  unfold do_sync
  rw [hwl]
  rfl

/-- C10, witness: a marker absent from the selected list yields an empty
work list and a run that does nothing. -/
theorem c10_unmatched_marker_witness :
    get_currently_syncing ({ currently_syncing := some "nope" } : TPState) = some "nope" ∧
    ("nope" : String) ∉ (selectedSortedStreams [sFull]).map Stream.tap_stream_id ∧
    workList [sFull] { currently_syncing := some "nope" } = [] ∧
    do_sync trivialCollab {} [sFull] "FULL_TABLE" { currently_syncing := some "nope" } () =
      ⟨{}, { currently_syncing := some "nope" }, [], [], (), none⟩ := by
  have h := c10_unmatched_marker trivialCollab {} "FULL_TABLE" [sFull]
    { currently_syncing := some "nope" } "nope" () rfl (by decide) (by decide)
  exact ⟨rfl, by decide, h.1, h.2⟩

/-! ### Discovery: identifier format and uniqueness -/

lemma discover_one_table_spec (db sn : String) (p : String × TableInfo) (e : CatalogEntry)
    (h : discover_one_table db sn p = Except.ok e) :
    e.database_name = db ∧ e.schema_name = sn ∧ e.table = p.1 ∧
      e.tap_stream_id = mkStreamId (db, sn, p.1) := by
  unfold discover_one_table at h
  cases hm : mapExcept (fun q => (schema_for_column q.2).map (fun r => (q.1, r.1)))
      p.2.columns with
  | error err => rw [hm] at h; cases h
  | ok colSchemas =>
    rw [hm] at h
    injection h with h'
    subst h'
    exact ⟨rfl, rfl, rfl, rfl⟩

lemma discover_tables_spec (db sn : String) :
    ∀ (tabs : List (String × TableInfo)) (es : List CatalogEntry),
      mapExcept (discover_one_table db sn) tabs = Except.ok es →
      es.map (fun e => (e.database_name, e.schema_name, e.table)) =
        tabs.map (fun q => (db, sn, q.1)) ∧
      ∀ e ∈ es, e.tap_stream_id = mkStreamId (e.database_name, e.schema_name, e.table) := by
  intro tabs
  induction tabs with
  | nil =>
    intro es h
    injection h with h'
    subst h'
    exact ⟨rfl, by simp⟩
  | cons q tabs ih =>
    intro es h
    unfold mapExcept at h
    cases hq : discover_one_table db sn q with
    | error err => rw [hq] at h; cases h
    | ok e =>
      rw [hq] at h
      cases hrest : mapExcept (discover_one_table db sn) tabs with
      | error err => rw [hrest] at h; cases h
      | ok es' =>
        rw [hrest] at h
        injection h with h'
        subst h'
        obtain ⟨hdb, hsn, htab, hid⟩ := discover_one_table_spec db sn q e hq
        obtain ⟨ihmap, ihfmt⟩ := ih es' hrest
        constructor
        · simp only [List.map_cons, ihmap, hdb, hsn, htab]
        · intro e' he'
          rcases List.mem_cons.mp he' with rfl | he''
          · rw [hid, hdb, hsn, htab]
          · exact ihfmt e' he''

lemma discover_schemas_spec (db : String) :
    ∀ (ti : List (String × List (String × TableInfo))) (ls : List (List CatalogEntry)),
      mapExcept (fun p => mapExcept (discover_one_table db p.1) p.2) ti = Except.ok ls →
      ls.flatten.map (fun e => (e.database_name, e.schema_name, e.table)) =
        ti.flatMap (fun p => p.2.map (fun q => (db, p.1, q.1))) ∧
      ∀ e ∈ ls.flatten, e.tap_stream_id =
        mkStreamId (e.database_name, e.schema_name, e.table) := by
  intro ti
  induction ti with
  | nil =>
    intro ls h
    injection h with h'
    subst h'
    exact ⟨rfl, by simp⟩
  | cons p ti ih =>
    intro ls h
    unfold mapExcept at h
    cases hp : mapExcept (discover_one_table db p.1) p.2 with
    | error err => rw [hp] at h; cases h
    | ok es1 =>
      rw [hp] at h
      cases hrest : mapExcept (fun p => mapExcept (discover_one_table db p.1) p.2) ti with
      | error err => rw [hrest] at h; cases h
      | ok ls' =>
        rw [hrest] at h
        injection h with h'
        subst h'
        obtain ⟨hmap1, hfmt1⟩ := discover_tables_spec db p.1 p.2 es1 hp
        obtain ⟨ihmap, ihfmt⟩ := ih ls' hrest
        constructor
        · simp only [List.flatten_cons, List.map_append, List.flatMap_cons, hmap1, ihmap]
        · intro e he
          rw [List.flatten_cons] at he
          rcases List.mem_append.mp he with he1 | he2
          · exact hfmt1 e he1
          · exact ihfmt e he2

lemma do_discovery_spec :
    ∀ (dbs : List (String × List (String × List (String × TableInfo))))
      (es : List CatalogEntry), do_discovery dbs = Except.ok es →
      es.map (fun e => (e.database_name, e.schema_name, e.table)) = triplesOfInput dbs ∧
      ∀ e ∈ es, e.tap_stream_id =
        mkStreamId (e.database_name, e.schema_name, e.table) := by
  intro dbs
  induction dbs with
  | nil =>
    intro es h
    injection h with h'
    subst h'
    exact ⟨rfl, by simp⟩
  | cons p dbs ih =>
    intro es h
    unfold do_discovery mapExcept at h
    cases hp : discover_columns p.1 p.2 with
    | error err => rw [hp] at h; cases h
    | ok es1 =>
      rw [hp] at h
      cases hrest : mapExcept (fun p => discover_columns p.1 p.2) dbs with
      | error err => rw [hrest] at h; cases h
      | ok ls' =>
        rw [hrest] at h
        injection h with h'
        subst h'
        have hrest' : do_discovery dbs = Except.ok ls'.flatten := by
          unfold do_discovery
          rw [hrest]
        obtain ⟨ihmap, ihfmt⟩ := ih ls'.flatten hrest'
        have hp' : ∃ ls1, mapExcept (fun q => mapExcept (discover_one_table p.1 q.1) q.2)
            p.2 = Except.ok ls1 ∧ es1 = ls1.flatten := by
          unfold discover_columns at hp
          cases hq : mapExcept (fun q => mapExcept (discover_one_table p.1 q.1) q.2) p.2 with
          | error err => rw [hq] at hp; cases hp
          | ok ls1 =>
            rw [hq] at hp
            injection hp with hp1
            exact ⟨ls1, rfl, hp1.symm⟩
        obtain ⟨ls1, hls1, hes1⟩ := hp'
        obtain ⟨hmap1, hfmt1⟩ := discover_schemas_spec p.1 p.2 ls1 hls1
        subst hes1
        constructor
        · simp only [List.flatten_cons, List.map_append, hmap1, ihmap, triplesOfInput,
            List.flatMap_cons]
        · intro e he
          rw [List.flatten_cons] at he
          rcases List.mem_append.mp he with he1 | he2
          · exact hfmt1 e he1
          · exact ihfmt e he2

lemma append_cons_cancel (d : Char) :
    ∀ (as as' t t' : List Char), d ∉ as → d ∉ as' → as ++ d :: t = as' ++ d :: t' →
      as = as' ∧ t = t' := by
  intro as
  induction as with
  | nil =>
    intro as' t t' _ ha' h
    cases as' with
    | nil => simpa using h
    | cons b bs =>
      simp only [List.nil_append, List.cons_append, List.cons.injEq] at h
      have : d ∈ b :: bs := by
        rw [h.1]
        exact List.mem_cons_self b bs
      exact absurd this ha'
  | cons a as ih =>
    intro as' t t' ha ha' h
    cases as' with
    | nil =>
      simp only [List.cons_append, List.nil_append, List.cons.injEq] at h
      have : d ∈ a :: as := by
        rw [← h.1]
        exact List.mem_cons_self a as
      exact absurd this ha
    | cons b bs =>
      simp only [List.cons_append, List.cons.injEq] at h
      obtain ⟨hab, hrest⟩ := h
      subst hab
      obtain ⟨h1, h2⟩ := ih bs t t' (fun hm => ha (List.mem_cons_of_mem _ hm))
        (fun hm => ha' (List.mem_cons_of_mem _ hm)) hrest
      exact ⟨by rw [h1], h2⟩

lemma mkStreamId_data (t : String × String × String) :
    (mkStreamId t).data = t.1.data ++ '-' :: (t.2.1.data ++ '-' :: t.2.2.data) := by
  show (t.1 ++ "-" ++ t.2.1 ++ "-" ++ t.2.2).data = _
  simp [String.data_append, List.append_assoc]

lemma mkStreamId_inj (t t' : String × String × String)
    (hna : noDash t.1) (hnb : noDash t.2.1) (hna' : noDash t'.1) (hnb' : noDash t'.2.1)
    (heq : mkStreamId t = mkStreamId t') : t = t' := by
  have hd := congrArg String.data heq
  rw [mkStreamId_data, mkStreamId_data] at hd
  obtain ⟨h1, h2⟩ := append_cons_cancel '-' _ _ _ _ hna hna' hd
  obtain ⟨h3, h4⟩ := append_cons_cancel '-' _ _ _ _ hnb hnb' h2
  obtain ⟨a, b, c⟩ := t
  obtain ⟨a', b', c'⟩ := t'
  simp only [Prod.mk.injEq]
  exact ⟨String.ext h1, String.ext h3, String.ext h4⟩

lemma mem_triplesOfInput {dbs : List (String × List (String × List (String × TableInfo)))}
    {t : String × String × String} (ht : t ∈ triplesOfInput dbs) :
    ∃ p ∈ dbs, ∃ q ∈ p.2, ∃ r ∈ q.2, t = (p.1, q.1, r.1) := by
  simp only [triplesOfInput, List.mem_flatMap, List.mem_map] at ht
  obtain ⟨p, hp, q, hq, r, hr, hform⟩ := ht
  exact ⟨p, hp, q, hq, r, hr, hform.symm⟩

lemma mem_db_part {pa : String} {rest : List (String × List (String × TableInfo))}
    {a : String × String × String}
    (ha : a ∈ rest.flatMap (fun q => q.2.map (fun r => (pa, q.1, r.1)))) : a.1 = pa := by
  simp only [List.mem_flatMap, List.mem_map] at ha
  obtain ⟨q, hq, r, hr, hform⟩ := ha
  rw [← hform]

lemma triples_nodup (dbs : List (String × List (String × List (String × TableInfo))))
    (h1 : (dbs.map (·.1)).Nodup)
    (h2 : ∀ p ∈ dbs, (p.2.map (·.1)).Nodup)
    (h3 : ∀ p ∈ dbs, ∀ q ∈ p.2, (q.2.map (·.1)).Nodup) :
    (triplesOfInput dbs).Nodup := by
  unfold triplesOfInput
  rw [List.nodup_flatMap]
  constructor
  · intro p hp
    rw [List.nodup_flatMap]
    constructor
    · intro q hq
      refine List.Nodup.map_on ?_ (h3 p hp q hq).of_map
      intro x hx y hy hxy
      simp only [Prod.mk.injEq, true_and] at hxy
      exact List.inj_on_of_nodup_map (h3 p hp q hq) hx hy hxy
    · have hpw : List.Pairwise (fun q q' => q.1 ≠ q'.1) p.2 :=
        List.pairwise_map.mp (h2 p hp)
      refine hpw.imp ?_
      intro q q' hne a ha ha'
      simp only [List.mem_map] at ha ha'
      obtain ⟨r, hr, hra⟩ := ha
      obtain ⟨r', hr', hra'⟩ := ha'
      rw [← hra'] at hra
      simp only [Prod.mk.injEq] at hra
      exact hne hra.2.1
  · have hpw : List.Pairwise (fun p p' => p.1 ≠ p'.1) dbs :=
      List.pairwise_map.mp h1
    refine hpw.imp ?_
    intro p p' hne a ha ha'
    have h1a : a.1 = p.1 := mem_db_part ha
    have h2a : a.1 = p'.1 := mem_db_part ha'
    exact hne (h1a ▸ h2a ▸ rfl)

/-- C6, amended: every catalog entry of every discovery run has
tap_stream_id equal to database-name, schema-name and table name joined by
dashes — unconditionally; and the identifiers of a multi-database run are
pairwise distinct provided the database and schema names contain no dash
and the database names, each database's schema names, and each schema's
table names are themselves distinct. -/
theorem c6_stream_id_format_and_uniqueness
    (dbs : List (String × List (String × List (String × TableInfo))))
    (es : List CatalogEntry)
    (hok : do_discovery dbs = Except.ok es) :
    (∀ e ∈ es, e.tap_stream_id =
      e.database_name ++ "-" ++ e.schema_name ++ "-" ++ e.table) ∧
    ((dbs.map (·.1)).Nodup →
      (∀ p ∈ dbs, (p.2.map (·.1)).Nodup) →
      (∀ p ∈ dbs, ∀ q ∈ p.2, (q.2.map (·.1)).Nodup) →
      (∀ p ∈ dbs, noDash p.1) →
      (∀ p ∈ dbs, ∀ q ∈ p.2, noDash q.1) →
      (es.map (·.tap_stream_id)).Nodup) := by
  obtain ⟨hmap, hfmt⟩ := do_discovery_spec dbs es hok
  refine ⟨fun e he => hfmt e he, ?_⟩
  intro hdb hschemas htables hnd1 hnd2
  have hids : es.map (·.tap_stream_id) = (triplesOfInput dbs).map mkStreamId := by
    rw [← hmap, List.map_map]
    exact List.map_congr_left (fun e he => hfmt e he)
  rw [hids]
  refine List.Nodup.map_on ?_ (triples_nodup dbs hdb hschemas htables)
  intro t ht t' ht' heq
  obtain ⟨p, hp, q, hq, r, hr, rfl⟩ := mem_triplesOfInput ht
  obtain ⟨p', hp', q', hq', r', hr', rfl⟩ := mem_triplesOfInput ht'
  exact mkStreamId_inj _ _ (hnd1 p hp) (hnd2 p hp q hq) (hnd1 p' hp') (hnd2 p' hp' q' hq')
    heq

/-- C6, counterexample: two distinct tables of a cluster whose database
and schema names contain dashes collide on the same stream identifier, so
the identifiers of a discovery run are not always pairwise distinct. -/
theorem c6_counterexample :
    discoveredIds dbsCollide = Except.ok ["a-b-c-d", "a-b-c-d"] ∧
    ¬ (["a-b-c-d", "a-b-c-d"] : List String).Nodup :=
  ⟨rfl, by decide⟩

/-- C6, witness: a two-database discovery run with dash-free database and
schema names yields entries in the mandated format with distinct
identifiers. -/
theorem c6_witness :
    do_discovery dbsGood = Except.ok [entryA, entryZ] ∧
    (∀ e ∈ [entryA, entryZ], e.tap_stream_id =
      e.database_name ++ "-" ++ e.schema_name ++ "-" ++ e.table) ∧
    ((([entryA, entryZ] : List CatalogEntry)).map (·.tap_stream_id)).Nodup := by
  have h := c6_stream_id_format_and_uniqueness dbsGood [entryA, entryZ] rfl
  exact ⟨rfl, h.1, h.2 (by decide) (by decide) (by decide) (by decide) (by decide)⟩

end TapPostgres

